import Mathlib

/-!
Verification development for the vehicle sales-estimation tool.

The repository is a Streamlit application (`streamlit_main.py`, `src/settings.py`)
that estimates a vehicle's sale price from historical comparables found by VIN
lookup, or from a pre-trained model, and then applies percentage deduction rules.
This file gives a shallow embedding of its core logic:

* Python strings are Lean `String`s; `str.strip()` is modelled by `pyStrip`
  (drop leading/trailing whitespace code points) and the slice `s[:8]` by
  `pyTake s 8`, both operating on the underlying list of characters.
* Python floats (sale prices, deduction rates) are modelled by `ℚ`.
* `pandas.Series.quantile(q)` (default linear interpolation) is modelled by
  `quantile`, and `Series.median()` — which coincides with the linear-interpolated
  quantile at 1/2 — by `median`.
* DataFrames of vehicle records / rules are modelled as Lean lists of structures,
  filters as `List.filter`, and the Spark-backed rule table of `src/settings.py`
  as a list of `Rule` with the SQL operations re-expressed over that list.
* Streamlit side effects (`st.error`, `st.warning`) are modelled by collecting
  the message strings into an interaction-outcome record.
-/

namespace SalesEstimation

/-! ### String helpers (Python `str.strip()` and slicing) -/

/-- Python's `str.strip()`: drop leading and trailing whitespace characters.
Used by `pandas.Series.str.strip()` in `get_vin_data`. -/
def pyStrip (s : String) : String :=
  ⟨((s.data.dropWhile Char.isWhitespace).reverse.dropWhile Char.isWhitespace).reverse⟩

/-- Python's slice `s[:n]`: the first `n` code points (all of `s` when shorter). -/
def pyTake (s : String) (n : Nat) : String := ⟨s.data.take n⟩

/-! ### Linear-interpolation quantiles (pandas `Series.quantile`, `Series.median`) -/

/-- Floor of a nonnegative rational as a natural number. -/
def rfloorNat (x : ℚ) : ℕ := (⌊x⌋).toNat

/-- The sale prices in ascending order (pandas sorts internally for quantiles). -/
def sortPrices (xs : List ℚ) : List ℚ := xs.insertionSort (· ≤ ·)

/-- `pandas.Series.quantile(q)` with the default linear interpolation:
with the values sorted ascending as `s` of length `n`, let `h = q*(n-1)`;
the result is `s[⌊h⌋] + (h - ⌊h⌋) * (s[⌊h⌋+1] - s[⌊h⌋])` (the last term taken
as `0` when `⌊h⌋` is the final index).  Meaningful for nonempty input. -/
def quantile (xs : List ℚ) (q : ℚ) : ℚ :=
  let s := sortPrices xs
  let n := s.length
  let h := q * ((n : ℚ) - 1)
  let i := rfloorNat h
  let a := s.getD i 0
  let b := s.getD (i + 1) a
  a + (h - (i : ℚ)) * (b - a)

/-- `pandas.Series.median()`, which equals the linear-interpolated quantile at 1/2. -/
def median (xs : List ℚ) : ℚ := quantile xs (1/2)

/-! ### `estimate_price_by_vin` (streamlit_main.py, lines 111–127) -/

/-- The `df_cleaned` frame computed inside `estimate_price_by_vin`:
`Q1`/`Q3` are the 0.25/0.75 quantiles of the prices, `IQR = Q3 - Q1`,
`lower = Q1 - 1.5*IQR`, `upper = Q3 + 1.5*IQR`, and the prices satisfying
`lower <= p <= upper` are kept (in their original order). -/
def cleanedPrices (prices : List ℚ) : List ℚ :=
  let Q1 := quantile prices (1/4)
  let Q3 := quantile prices (3/4)
  let IQR := Q3 - Q1
  let lower := Q1 - 3/2 * IQR
  let upper := Q3 + 3/2 * IQR
  prices.filter (fun p => decide (lower ≤ p) && decide (p ≤ upper))

/-- `estimate_price_by_vin` from `streamlit_main.py`, on the comparables'
`Sale Price` column: `None` on an empty frame; otherwise the median of the
IQR-filtered prices (`cleanedPrices`), falling back to the median of all
prices when the filter keeps nothing. -/
def estimate_price_by_vin (prices : List ℚ) : Option ℚ :=
  if prices = [] then none
  else if cleanedPrices prices = [] then some (median prices)
  else some (median (cleanedPrices prices))

/-- The statistical Price-Estimator exactly as §4.2 of the specification words
it: quartiles by linear-interpolation quantile estimation, `IQR = Q3 − Q1`,
retain prices within `[Q1 − 1.5·IQR, Q3 + 1.5·IQR]`, return the median of the
retained prices, or the median of the unfiltered prices if none survive.
Stated independently of the code's definition so that claim C1 can compare
the two. -/
def specStatisticalEstimator (prices : List ℚ) : Option ℚ :=
  if prices = [] then none
  else
    let q1 := quantile prices (1/4)
    let q3 := quantile prices (3/4)
    let kept := prices.filter
      (fun p => decide (q1 - 1.5 * (q3 - q1) ≤ p ∧ p ≤ q3 + 1.5 * (q3 - q1)))
    some (if kept = [] then median prices else median kept)

/-! ### Vehicle records and `get_vin_data` (streamlit_main.py, lines 77–109) -/

/-- One row of `data.csv`, restricted to the columns `get_vin_data` returns. -/
structure VehicleRecord where
  vin : String
  lot_year : Int
  lot_make : String
  lot_model : String
  sale_price : ℚ
  lot_run_condition : String
  sale_title_type : String
  damage_type_description : String
  odometer_reading : Int
  lot_fuel_type : String
deriving DecidableEq

/-- `data[str_cols] = data[str_cols].apply(lambda x: x.str.strip())`: every
string column of the row is whitespace-stripped. -/
def stripRecord (r : VehicleRecord) : VehicleRecord :=
  { r with
    vin := pyStrip r.vin
    lot_make := pyStrip r.lot_make
    lot_model := pyStrip r.lot_model
    lot_run_condition := pyStrip r.lot_run_condition
    sale_title_type := pyStrip r.sale_title_type
    damage_type_description := pyStrip r.damage_type_description
    lot_fuel_type := pyStrip r.lot_fuel_type }

/-- `get_vin_data` on a successfully loaded dataset:
`vin_search = vin[:8]` on the *raw* input string, all string columns stripped,
and the rows kept whose stripped VIN's first 8 characters equal `vin_search`
(`data['VIN'].str.strip().str[:8] == vin_search`), in dataset order. -/
def get_vin_data (vin : String) (data : List VehicleRecord) : List VehicleRecord :=
  let vin_search := pyTake vin 8
  let stripped := data.map stripRecord
  stripped.filter (fun r => pyTake (pyStrip r.vin) 8 == vin_search)

/-! ### Deduction rules (src/settings.py) and the two matching loops -/

/-- One row of the `deduction_rules` table
(`id BIGINT, rule_type STRING, rule_condition STRING, deduction_rate DOUBLE,
is_active BOOLEAN`).  Ids are naturals: `add_rule` only ever assigns ids ≥ 1. -/
structure Rule where
  id : Nat
  rule_type : String
  rule_condition : String
  deduction_rate : ℚ
  is_active : Bool
deriving DecidableEq

/-- The applicability test of the VIN-based prediction path
(`vin_based_prediction`, streamlit_main.py lines 224–233): a rule applies when
its type is `'General'` *and* its condition is `'General'`; or its type is
`'Year'` and its condition equals `str(int(vehicle_year))`; or its type is
`'Making Model'` and its condition equals `f"{make}|{model}"`. -/
def vinRuleApplied (rule : Rule) (vehicle_year : Int)
    (vehicle_make vehicle_model : String) : Bool :=
  if rule.rule_type == "General" && rule.rule_condition == "General" then true
  else if rule.rule_type == "Year" then toString vehicle_year == rule.rule_condition
  else if rule.rule_type == "Making Model" then
    vehicle_make ++ "|" ++ vehicle_model == rule.rule_condition
  else false

/-- The total deduction rate accumulated by the VIN-based prediction path:
restrict to active rules (`all_rules[all_rules['is_active']]`) and add each
applicable rule's rate to a running total starting at 0 (uncapped). -/
def vinTotalDeductionRate (all_rules : List Rule) (year : Int)
    (make model : String) : ℚ :=
  (all_rules.filter (fun r => r.is_active)).foldl
    (fun acc r => if vinRuleApplied r year make model then acc + r.deduction_rate
                  else acc) 0

/-- `final_price = estimated_price * (1 - total_deduction_rate / 100)` in the
VIN-based prediction path. -/
def vinFinalPrice (estimated_price : ℚ) (all_rules : List Rule) (year : Int)
    (make model : String) : ℚ :=
  estimated_price * (1 - vinTotalDeductionRate all_rules year make model / 100)

/-- The applicability test of the manual-input prediction path
(`manual_input_prediction`, streamlit_main.py lines 331–340); translated
separately from its own loop so claim C9 can compare the two paths. -/
def manualRuleApplied (rule : Rule) (vehicle_year : Int)
    (vehicle_make vehicle_model : String) : Bool :=
  if rule.rule_type == "General" && rule.rule_condition == "General" then true
  else if rule.rule_type == "Year" then toString vehicle_year == rule.rule_condition
  else if rule.rule_type == "Making Model" then
    vehicle_make ++ "|" ++ vehicle_model == rule.rule_condition
  else false

/-- The total deduction rate accumulated by the manual-input prediction path. -/
def manualTotalDeductionRate (all_rules : List Rule) (year : Int)
    (make model : String) : ℚ :=
  (all_rules.filter (fun r => r.is_active)).foldl
    (fun acc r => if manualRuleApplied r year make model then acc + r.deduction_rate
                  else acc) 0

/-- `final_price` in the manual-input prediction path. -/
def manualFinalPrice (estimated_price : ℚ) (all_rules : List Rule) (year : Int)
    (make model : String) : ℚ :=
  estimated_price * (1 - manualTotalDeductionRate all_rules year make model / 100)

/-- Claim C2's matching relation, stated from the claim's own words: a General
rule *always* applies; a Year rule applies exactly when its condition equals
the year rendered as an integer string; a Make-Model rule (type tag
`'Making Model'` in the code) applies exactly when its condition equals
`"{make}|{model}"`. -/
def claimRuleApplies (rule : Rule) (year : Int) (make model : String) : Prop :=
  rule.rule_type = "General"
  ∨ (rule.rule_type = "Year" ∧ toString year = rule.rule_condition)
  ∨ (rule.rule_type = "Making Model" ∧ make ++ "|" ++ model = rule.rule_condition)

instance (rule : Rule) (year : Int) (make model : String) :
    Decidable (claimRuleApplies rule year make model) := by
  unfold claimRuleApplies; infer_instance

/-- The total deduction claim C2 asserts: the sum of the rates of the active
rules that `claimRuleApplies` accepts. -/
def claimTotalDeduction (all_rules : List Rule) (year : Int)
    (make model : String) : ℚ :=
  (((all_rules.filter (fun r => r.is_active)).filter
      (fun r => decide (claimRuleApplies r year make model))).map
    (fun r => r.deduction_rate)).sum

/-- The amended matching relation: as `claimRuleApplies`, except that a General
rule applies exactly when its condition string is `'General'`. -/
def amendedRuleApplies (rule : Rule) (year : Int) (make model : String) : Prop :=
  (rule.rule_type = "General" ∧ rule.rule_condition = "General")
  ∨ (rule.rule_type = "Year" ∧ toString year = rule.rule_condition)
  ∨ (rule.rule_type = "Making Model" ∧ make ++ "|" ++ model = rule.rule_condition)

instance (rule : Rule) (year : Int) (make model : String) :
    Decidable (amendedRuleApplies rule year make model) := by
  unfold amendedRuleApplies; infer_instance

/-- The total deduction under the amended matching relation. -/
def amendedTotalDeduction (all_rules : List Rule) (year : Int)
    (make model : String) : ℚ :=
  (((all_rules.filter (fun r => r.is_active)).filter
      (fun r => decide (amendedRuleApplies r year make model))).map
    (fun r => r.deduction_rate)).sum

/-! ### The deduction-rule store (src/settings.py, lines 32–70) -/

/-- `SELECT MAX(id) as max_id FROM deduction_rules`: `none` on an empty table. -/
def maxRuleId (rules : List Rule) : Option Nat := (rules.map (fun r => r.id)).max?

/-- The id `add_rule` assigns: `max_id + 1` when the table has rows, else 1. -/
def newRuleId (rules : List Rule) : Nat :=
  match maxRuleId rules with
  | some m => m + 1
  | none => 1

/-- `add_rule` (src/settings.py lines 32–49): append one fresh rule, active. -/
def add_rule (rules : List Rule) (rule_type : String) (deduction_rate : ℚ)
    (condition : String) : List Rule :=
  rules ++ [{ id := newRuleId rules, rule_type := rule_type,
              rule_condition := condition, deduction_rate := deduction_rate,
              is_active := true }]

/-- `update_rule_status` (src/settings.py lines 62–65):
`UPDATE deduction_rules SET is_active = b WHERE id = rule_id`. -/
def update_rule_status (rules : List Rule) (rule_id : Nat) (b : Bool) :
    List Rule :=
  rules.map (fun r => if r.id = rule_id then { r with is_active := b } else r)

/-- `delete_rule` (src/settings.py lines 67–70):
`DELETE FROM deduction_rules WHERE id = rule_id`. -/
def delete_rule (rules : List Rule) (rule_id : Nat) : List Rule :=
  rules.filter (fun r => decide (r.id ≠ rule_id))

/-- `get_all_rules`' success path (src/settings.py lines 51–60): the stored
rules ordered by id (`orderBy("id")`). -/
def get_all_rules (rules : List Rule) : List Rule :=
  rules.insertionSort (fun a b => a.id ≤ b.id)

/-- One session-level operation on the rule store. -/
inductive StoreOp where
  | addOp (rule_type : String) (deduction_rate : ℚ) (condition : String)
  | setActiveOp (id : Nat) (b : Bool)
  | deleteOp (id : Nat)

/-- Apply one store operation. -/
def applyOp (rules : List Rule) : StoreOp → List Rule
  | .addOp t rate cond => add_rule rules t rate cond
  | .setActiveOp i b => update_rule_status rules i b
  | .deleteOp i => delete_rule rules i

/-- Run a sequence of store operations. -/
def runOps (rules : List Rule) (ops : List StoreOp) : List Rule :=
  ops.foldl applyOp rules

/-- The stored ids, in table order. -/
def ruleIds (rules : List Rule) : List Nat := rules.map (fun r => r.id)

/-! ### The VIN-based prediction interaction with fallible collaborators
(claim C7): `Except.error` models a raised exception while loading `data.csv`
or reading the Databricks rules table. -/

/-- What one user interaction surfaces: Streamlit `st.error`/`st.warning`
messages and the displayed estimated/final prices (`none` = not shown). -/
structure InteractionOutcome where
  error_messages : List String
  warning_messages : List String
  estimated_price : Option ℚ
  final_price : Option ℚ
deriving DecidableEq

/-- `get_vin_data` including its `try/except` (lines 78–109): a load failure
shows `st.error(f"Error loading VIN data: {e}")` and yields an empty frame. -/
def get_vin_data_load (vin : String)
    (src : Except String (List VehicleRecord)) :
    List VehicleRecord × List String :=
  match src with
  | .error e => ([], ["Error loading VIN data: " ++ e])
  | .ok data => (get_vin_data vin data, [])

/-- `get_all_rules` including its `try/except` (src/settings.py lines 51–60):
a connection failure shows `st.error(f"Databricks connection error: {e}")` and
yields an empty rules frame. -/
def get_all_rules_load (src : Except String (List Rule)) :
    List Rule × List String :=
  match src with
  | .error e => ([], ["Databricks connection error: " ++ e])
  | .ok rules => (get_all_rules rules, [])

/-- The VIN-based prediction interaction (`vin_based_prediction`,
streamlit_main.py lines 146–240) as one search-then-predict flow: an empty or
failed lookup shows the no-match warning and stops with no prices; on matches
the estimate is computed; Python's truthiness test `if estimated_price:` also
stops when the estimate is `0.0`; otherwise the rules are fetched (a rule-store
failure leaves them empty) and the deduction-adjusted final price is shown. -/
def vin_based_prediction (vin : String)
    (dataSrc : Except String (List VehicleRecord))
    (ruleSrc : Except String (List Rule)) : InteractionOutcome :=
  let (similar, dataErrs) := get_vin_data_load vin dataSrc
  match similar with
  | [] =>
      { error_messages := dataErrs
        warning_messages := ["No similar vehicles found for this VIN."]
        estimated_price := none
        final_price := none }
  | r :: rs =>
      match estimate_price_by_vin ((r :: rs).map (fun v => v.sale_price)) with
      | none =>
          { error_messages := dataErrs
            warning_messages := []
            estimated_price := none
            final_price := none }
      | some est =>
          if est = 0 then
            { error_messages := dataErrs
              warning_messages := []
              estimated_price := some est
              final_price := none }
          else
            let (rules, ruleErrs) := get_all_rules_load ruleSrc
            { error_messages := dataErrs ++ ruleErrs
              warning_messages := []
              estimated_price := some est
              final_price :=
                some (vinFinalPrice est rules r.lot_year r.lot_make r.lot_model) }

end SalesEstimation

namespace SalesEstimation

/-! Concrete sanity evaluations used while settling the numerical claims. -/

theorem sortPrices_example :
    sortPrices [10000, 10500, 11000, 50000] = [10000, 10500, 11000, 50000] := by
  norm_num [sortPrices, List.insertionSort, List.orderedInsert]

theorem quantile_q1_example : quantile [10000, 10500, 11000, 50000] (1/4) = 10375 := by
  have hfl : rfloorNat ((3 : ℚ)/4) = 0 := by
    have h0 : (⌊(3/4 : ℚ)⌋) = 0 := by norm_num
    simp [rfloorNat, h0]
  simp only [quantile, sortPrices_example]
  norm_num [hfl, List.getD]

theorem quantile_q3_example : quantile [10000, 10500, 11000, 50000] (3/4) = 20750 := by
  have hfl : rfloorNat ((9 : ℚ)/4) = 2 := by
    have h0 : (⌊(9/4 : ℚ)⌋) = 2 := by norm_num
    simp [rfloorNat, h0]
  simp only [quantile, sortPrices_example]
  norm_num [hfl, List.getD]

theorem median_example3 : median [10000, 10500, 11000] = 10500 := by
  have hsort : sortPrices [10000, 10500, 11000] = [10000, 10500, 11000] := by
    norm_num [sortPrices, List.insertionSort, List.orderedInsert]
  have hfl : rfloorNat (1 : ℚ) = 1 := by
    have h0 : (⌊(1 : ℚ)⌋) = 1 := by norm_num
    simp [rfloorNat, h0]
  simp only [median, quantile, hsort]
  norm_num [hfl, List.getD]

theorem cleaned_example :
    cleanedPrices [10000, 10500, 11000, 50000] = [10000, 10500, 11000] := by
  simp only [cleanedPrices, quantile_q1_example, quantile_q3_example]
  norm_num

theorem estimate_example :
    estimate_price_by_vin [10000, 10500, 11000, 50000] = some 10500 := by
  simp only [estimate_price_by_vin, cleaned_example]
  norm_num [median_example3]
  exact ⟨by simp, fun h => by simp at h⟩

/-- C5 (counterexample): on `[10000, 10500, 11000, 50000]` the linear-interpolation
third quartile computed by `estimate_price_by_vin` is 20750, not 16625 as the claim
states, and the IQR is 10375, not 6250. -/
theorem c5_counterexample :
    quantile [10000, 10500, 11000, 50000] (3/4) ≠ 16625 ∧
    quantile [10000, 10500, 11000, 50000] (3/4)
      - quantile [10000, 10500, 11000, 50000] (1/4) ≠ 6250 := by
  rw [quantile_q3_example, quantile_q1_example]
  norm_num

/-- C5 (amended): on `[10000, 10500, 11000, 50000]` the estimator's intermediate
values are Q1 = 10375, Q3 = 20750, IQR = 10375, bounds `[-5187.5, 36312.5]`,
the filtered set is `[10000, 10500, 11000]`, and the returned estimate is the
filtered median 10500. -/
theorem c5_concrete_pipeline_values :
    quantile [10000, 10500, 11000, 50000] (1/4) = 10375 ∧
    quantile [10000, 10500, 11000, 50000] (3/4) = 20750 ∧
    quantile [10000, 10500, 11000, 50000] (3/4)
      - quantile [10000, 10500, 11000, 50000] (1/4) = 10375 ∧
    quantile [10000, 10500, 11000, 50000] (1/4)
      - 3/2 * (quantile [10000, 10500, 11000, 50000] (3/4)
          - quantile [10000, 10500, 11000, 50000] (1/4)) = -10375/2 ∧
    quantile [10000, 10500, 11000, 50000] (3/4)
      + 3/2 * (quantile [10000, 10500, 11000, 50000] (3/4)
          - quantile [10000, 10500, 11000, 50000] (1/4)) = 72625/2 ∧
    cleanedPrices [10000, 10500, 11000, 50000] = [10000, 10500, 11000] ∧
    estimate_price_by_vin [10000, 10500, 11000, 50000] = some 10500 := by
  refine ⟨quantile_q1_example, quantile_q3_example, ?_, ?_, ?_, cleaned_example,
    estimate_example⟩ <;>
  rw [quantile_q3_example, quantile_q1_example] <;> norm_num

/-- C10: on an empty list of comparables, `estimate_price_by_vin` returns `none`
(Python `None`), not an error and not a numeric value. -/
theorem c10_empty_comparables_yield_none : estimate_price_by_vin [] = none := rfl

/-- C1: for every non-empty sequence of sale prices, `estimate_price_by_vin`
computes Q1 and Q3 by linear-interpolation quantile estimation, keeps only the
prices within `[Q1 - 1.5*IQR, Q3 + 1.5*IQR]`, and returns the median of the
kept prices, falling back to the median of the unfiltered prices when nothing
survives — i.e. it agrees with the independently stated `specStatisticalEstimator`. -/
theorem c1_estimator_matches_spec (prices : List ℚ) (hne : prices ≠ []) :
    estimate_price_by_vin prices = specStatisticalEstimator prices := by
  have h15 : (1.5 : ℚ) = 3/2 := by norm_num
  simp only [estimate_price_by_vin, specStatisticalEstimator, cleanedPrices,
    if_neg hne, h15, Bool.decide_and]
  split
  · rfl
  · rfl

/-- Witness for C1: the equality at the concrete comparables list
`[10000, 10500, 11000, 50000]`. -/
theorem c1_estimator_matches_spec_witness :
    ([10000, 10500, 11000, 50000] : List ℚ) ≠ [] ∧
    estimate_price_by_vin [10000, 10500, 11000, 50000] =
      specStatisticalEstimator [10000, 10500, 11000, 50000] :=
  ⟨by simp, c1_estimator_matches_spec [10000, 10500, 11000, 50000] (by simp)⟩

/-! ### Bounds of the linear-interpolation quantile (claim C6) -/

theorem rfloorNat_cast_le {x : ℚ} (hx : 0 ≤ x) : (rfloorNat x : ℚ) ≤ x := by
  have h0 : (0 : ℤ) ≤ ⌊x⌋ := Int.floor_nonneg.mpr hx
  have hcast : ((rfloorNat x : ℕ) : ℚ) = ((⌊x⌋ : ℤ) : ℚ) := by
    rw [rfloorNat]
    exact_mod_cast congrArg (fun z : ℤ => (z : ℚ)) (Int.toNat_of_nonneg h0)
  rw [hcast]
  exact Int.floor_le x

theorem lt_rfloorNat_add_one {x : ℚ} (hx : 0 ≤ x) : x < (rfloorNat x : ℚ) + 1 := by
  have h0 : (0 : ℤ) ≤ ⌊x⌋ := Int.floor_nonneg.mpr hx
  have hcast : ((rfloorNat x : ℕ) : ℚ) = ((⌊x⌋ : ℤ) : ℚ) := by
    rw [rfloorNat]
    exact_mod_cast congrArg (fun z : ℤ => (z : ℚ)) (Int.toNat_of_nonneg h0)
  rw [hcast]
  exact Int.lt_floor_add_one x

/-- The linear-interpolation quantile of a nonempty list lies between two of the
list's members (for 0 ≤ q ≤ 1): the two sorted neighbours it interpolates. -/
theorem quantile_between (xs : List ℚ) (q : ℚ) (hne : xs ≠ [])
    (hq0 : 0 ≤ q) (hq1 : q ≤ 1) :
    ∃ a ∈ xs, ∃ b ∈ xs, a ≤ quantile xs q ∧ quantile xs q ≤ b := by
  classical
  have hperm : (sortPrices xs).Perm xs := List.perm_insertionSort _ xs
  have hsorted : (sortPrices xs).Sorted (· ≤ ·) := List.sorted_insertionSort _ xs
  set s := sortPrices xs with hs
  set n := s.length with hn
  have hnpos : 0 < n := by
    rw [hn, hperm.length_eq]
    exact List.length_pos.mpr hne
  have hsub : (0 : ℚ) ≤ (n : ℚ) - 1 := by
    have : (1 : ℚ) ≤ (n : ℚ) := by exact_mod_cast hnpos
    linarith
  set h := q * ((n : ℚ) - 1) with hh
  have hh0 : 0 ≤ h := mul_nonneg hq0 hsub
  have hhle : h ≤ (n : ℚ) - 1 := by
    calc h = q * ((n : ℚ) - 1) := hh
    _ ≤ 1 * ((n : ℚ) - 1) := mul_le_mul_of_nonneg_right hq1 hsub
    _ = (n : ℚ) - 1 := one_mul _
  set i := rfloorNat h with hi
  have hile : (i : ℚ) ≤ h := rfloorNat_cast_le hh0
  have hlt1 : h < (i : ℚ) + 1 := lt_rfloorNat_add_one hh0
  have hin : i < n := by
    have h1 : (i : ℚ) < (n : ℚ) := by linarith
    exact_mod_cast h1
  have hquant : quantile xs q =
      s.getD i 0 + (h - (i : ℚ)) * (s.getD (i + 1) (s.getD i 0) - s.getD i 0) := rfl
  have hA : s.getD i 0 = s.get ⟨i, hin⟩ := by
    rw [List.getD_eq_getElem s 0 hin]
    simp [List.get_eq_getElem]
  have hmemA : s.get ⟨i, hin⟩ ∈ xs := hperm.subset (s.get_mem _ hin)
  have hg0 : 0 ≤ h - (i : ℚ) := by linarith
  have hg1 : h - (i : ℚ) ≤ 1 := by linarith
  by_cases hb : i + 1 < n
  · have hB : s.getD (i + 1) (s.getD i 0) = s.get ⟨i + 1, hb⟩ := by
      rw [List.getD_eq_getElem s _ hb]
      simp [List.get_eq_getElem]
    have hmemB : s.get ⟨i + 1, hb⟩ ∈ xs := hperm.subset (s.get_mem _ hb)
    have hAB : s.get ⟨i, hin⟩ ≤ s.get ⟨i + 1, hb⟩ :=
      hsorted.rel_get_of_lt (by simp [Fin.lt_def])
    refine ⟨s.get ⟨i, hin⟩, hmemA, s.get ⟨i + 1, hb⟩, hmemB, ?_, ?_⟩
    · rw [hquant, hB, hA]
      nlinarith [mul_nonneg hg0 (sub_nonneg.mpr hAB)]
    · rw [hquant, hB, hA]
      nlinarith [mul_le_of_le_one_left (sub_nonneg.mpr hAB) hg1]
  · have hout : n ≤ i + 1 := le_of_not_lt hb
    have hB : s.getD (i + 1) (s.getD i 0) = s.getD i 0 :=
      List.getD_eq_default s _ hout
    refine ⟨s.get ⟨i, hin⟩, hmemA, s.get ⟨i, hin⟩, hmemA, ?_, ?_⟩ <;>
      rw [hquant, hB, hA] <;> ring_nf <;> exact le_refl _

theorem min?_le_of_mem {l : List ℚ} {a x : ℚ} (h : l.min? = some a) (hx : x ∈ l) :
    a ≤ x := by
  have anti : Std.Antisymm (α := ℚ) (· ≤ ·) := ⟨fun h1 h2 => le_antisymm h1 h2⟩
  exact ((List.min?_eq_some_iff (fun c => le_refl c) (fun c d => min_choice c d)
    (fun _ _ _ => le_min_iff)).1 h).2 x hx

theorem le_max?_of_mem {l : List ℚ} {a x : ℚ} (h : l.max? = some a) (hx : x ∈ l) :
    x ≤ a := by
  have anti : Std.Antisymm (α := ℚ) (· ≤ ·) := ⟨fun h1 h2 => le_antisymm h1 h2⟩
  exact ((List.max?_eq_some_iff (fun c => le_refl c) (fun c d => max_choice c d)
    (fun _ _ _ => max_le_iff)).1 h).2 x hx

theorem cleanedPrices_subset (ps : List ℚ) : ∀ x ∈ cleanedPrices ps, x ∈ ps := by
  intro x hx
  simp only [cleanedPrices] at hx
  exact (List.mem_filter.mp hx).1

/-- C6: for every non-empty price list, any value returned by
`estimate_price_by_vin` lies within the closed interval bounded by the
minimum and maximum of the input prices. -/
theorem c6_estimate_within_min_max (ps : List ℚ) (hne : ps ≠ []) (lo hi r : ℚ)
    (hlo : ps.min? = some lo) (hhi : ps.max? = some hi)
    (hr : estimate_price_by_vin ps = some r) : lo ≤ r ∧ r ≤ hi := by
  simp only [estimate_price_by_vin, if_neg hne] at hr
  by_cases hc : cleanedPrices ps = []
  · rw [if_pos hc, Option.some.injEq] at hr
    obtain ⟨a, ha, b, hb, har, hrb⟩ :=
      quantile_between ps (1/2) hne (by norm_num) (by norm_num)
    rw [← hr]
    exact ⟨le_trans (min?_le_of_mem hlo ha) har,
           le_trans hrb (le_max?_of_mem hhi hb)⟩
  · rw [if_neg hc, Option.some.injEq] at hr
    obtain ⟨a, ha, b, hb, har, hrb⟩ :=
      quantile_between (cleanedPrices ps) (1/2) hc (by norm_num) (by norm_num)
    rw [← hr]
    exact ⟨le_trans (min?_le_of_mem hlo (cleanedPrices_subset ps a ha)) har,
           le_trans hrb (le_max?_of_mem hhi (cleanedPrices_subset ps b hb))⟩

/-! ### Rule matching (claims C2 and C9) -/

theorem foldl_deduction_eq_sum (p : Rule → Bool) (l : List Rule) (acc : ℚ) :
    l.foldl (fun a r => if p r then a + r.deduction_rate else a) acc
      = acc + ((l.filter p).map (fun r => r.deduction_rate)).sum := by
  induction l generalizing acc with
  | nil => simp
  | cons x xs ih =>
    cases hx : p x <;>
      simp [List.foldl_cons, List.filter_cons, hx, ih, add_assoc]

theorem vinRuleApplied_eq_decide (r : Rule) (y : Int) (mk md : String) :
    vinRuleApplied r y mk md = decide (amendedRuleApplies r y mk md) := by
  rw [Bool.eq_iff_iff, decide_eq_true_eq]
  unfold vinRuleApplied amendedRuleApplies
  split_ifs with h1 h2 h3 <;> simp_all

/-- C2 (counterexample): an active rule of type `'General'` whose condition is
`"X"` rather than `"General"` is *not* applied by the code (total deduction 0,
final price unchanged), while the claim's matching relation ("a General rule
always applies") counts its rate 5 and demands final price `est * 0.95`. -/
theorem c2_counterexample :
    vinTotalDeductionRate [⟨1, "General", "X", 5, true⟩] 2020 "Toyota" "Camry" = 0 ∧
    claimTotalDeduction [⟨1, "General", "X", 5, true⟩] 2020 "Toyota" "Camry" = 5 ∧
    vinFinalPrice 100 [⟨1, "General", "X", 5, true⟩] 2020 "Toyota" "Camry" = 100 ∧
    (100 : ℚ) ≠
      100 * (1 - claimTotalDeduction [⟨1, "General", "X", 5, true⟩] 2020
        "Toyota" "Camry" / 100) := by
  have h0 : vinTotalDeductionRate [⟨1, "General", "X", 5, true⟩] 2020
      "Toyota" "Camry" = 0 := by
    simp [vinTotalDeductionRate, vinRuleApplied]
  have h5 : claimTotalDeduction [⟨1, "General", "X", 5, true⟩] 2020
      "Toyota" "Camry" = 5 := by
    simp [claimTotalDeduction, claimRuleApplies]
  refine ⟨h0, h5, ?_, ?_⟩
  · simp [vinFinalPrice, h0]
  · rw [h5]; norm_num

/-- C2 (amended): for every rule set and vehicle, the code's total deduction is
the uncapped sum of the rates of the active rules accepted by the amended
relation — General rules apply exactly when their condition is `'General'`,
Year rules exactly when their condition is the year's integer string,
Make-Model rules exactly when their condition is `"{make}|{model}"`
(case-sensitive) — and the final price is `estimate * (1 - total/100)`. -/
theorem c2_rule_matching_amended (rules : List Rule) (year : Int)
    (make model : String) (est : ℚ) :
    vinTotalDeductionRate rules year make model
        = amendedTotalDeduction rules year make model ∧
    vinFinalPrice est rules year make model
        = est * (1 - amendedTotalDeduction rules year make model / 100) := by
  have htot : vinTotalDeductionRate rules year make model
      = amendedTotalDeduction rules year make model := by
    unfold vinTotalDeductionRate amendedTotalDeduction
    rw [foldl_deduction_eq_sum, zero_add]
    congr 1
    apply congrArg
    apply List.filter_congr
    intro x _
    exact vinRuleApplied_eq_decide x year make model
  exact ⟨htot, by rw [vinFinalPrice, htot]⟩

/-- C9: the rule-matching loop of the VIN-based prediction path and the one of
the manual-input prediction path compute the same total deduction rate and the
same final price on every rule set, vehicle and estimated price. -/
theorem c9_vin_manual_paths_agree (rules : List Rule) (year : Int)
    (make model : String) (est : ℚ) :
    vinTotalDeductionRate rules year make model
        = manualTotalDeductionRate rules year make model ∧
    vinFinalPrice est rules year make model
        = manualFinalPrice est rules year make model := by
  have h : vinRuleApplied = manualRuleApplied := rfl
  refine ⟨?_, ?_⟩ <;>
    simp [vinTotalDeductionRate, manualTotalDeductionRate, vinFinalPrice,
      manualFinalPrice, h]

/-! ### Comparable lookup (claim C3) -/

theorem head_not_of_dropWhile_self {α : Type*} {p : α → Bool} {a : α}
    {t : List α} (hl : (a :: t).dropWhile p = a :: t) : p a = false := by
  by_cases hpa : p a
  · rw [List.dropWhile_cons_of_pos hpa] at hl
    have hlen := congrArg List.length hl
    have hle := (List.dropWhile_sublist (l := t) (p := p)).length_le
    simp only [List.length_cons] at hlen
    omega
  · exact Bool.eq_false_iff.mpr hpa

theorem dropWhile_rdropWhile_dropWhile {α : Type*} (p : α → Bool) (l : List α) :
    (List.rdropWhile p (l.dropWhile p)).dropWhile p
      = List.rdropWhile p (l.dropWhile p) := by
  rcases hrd : List.rdropWhile p (l.dropWhile p) with _ | ⟨a, as⟩
  · rfl
  · have hpre : (a :: as) <+: l.dropWhile p := by
      rw [← hrd]; exact List.rdropWhile_prefix _ _
    obtain ⟨t, ht⟩ := hpre
    have hself : (l.dropWhile p).dropWhile p = l.dropWhile p :=
      List.dropWhile_idempotent p l
    rw [← ht, List.cons_append] at hself
    have hfa : p a = false := head_not_of_dropWhile_self hself
    rw [List.dropWhile_cons_of_neg (by simp [hfa])]

theorem pyStrip_eq_rdrop (x : String) :
    pyStrip x =
      ⟨List.rdropWhile Char.isWhitespace (x.data.dropWhile Char.isWhitespace)⟩ :=
  rfl

theorem pyStrip_idem (s : String) : pyStrip (pyStrip s) = pyStrip s := by
  rw [pyStrip_eq_rdrop s, pyStrip_eq_rdrop]
  show String.mk _ = String.mk _
  congr 1
  rw [show (String.mk (List.rdropWhile Char.isWhitespace
      (s.data.dropWhile Char.isWhitespace))).data
      = List.rdropWhile Char.isWhitespace
          (s.data.dropWhile Char.isWhitespace) from rfl,
    dropWhile_rdropWhile_dropWhile]
  exact List.rdropWhile_idempotent _ _

theorem strip_stripRecord_vin (r : VehicleRecord) :
    pyStrip (stripRecord r).vin = (stripRecord r).vin :=
  pyStrip_idem r.vin

/-- A concrete dataset row used to refute the trimmed-input reading of C3. -/
def cexRecord : VehicleRecord :=
  { vin := "1HGBH41JXMN109186", lot_year := 2021, lot_make := "Honda",
    lot_model := "Civic", sale_price := 10000,
    lot_run_condition := "Run and Drive", sale_title_type := "Clean",
    damage_type_description := "Front End", odometer_reading := 50000,
    lot_fuel_type := "Gas" }

/-- C3 (counterexample): on the input VIN `" 1HGBH41JXMN109186"` (leading
space), the code returns no rows from a dataset containing VIN
`"1HGBH41JXMN109186"`, although that record's trimmed VIN shares its first 8
characters with the trimmed input VIN — the code compares against the *raw*
input's first 8 characters. -/
theorem c3_counterexample :
    get_vin_data " 1HGBH41JXMN109186" [cexRecord] = [] ∧
    ([cexRecord].map stripRecord).filter
      (fun r => pyTake (pyStrip r.vin) 8
        == pyTake (pyStrip " 1HGBH41JXMN109186") 8) = [stripRecord cexRecord] ∧
    ([stripRecord cexRecord] : List VehicleRecord) ≠ [] := by
  refine ⟨by decide, rfl, by decide⟩

/-- C3 (amended): `get_vin_data` returns exactly the (string-stripped) records
whose trimmed VIN's first 8 characters equal the first 8 characters of the
*raw* input VIN, in dataset order; in particular an empty dataset or no match
yields `[]` and never an error. -/
theorem c3_lookup_matches_raw_input (vin : String) (data : List VehicleRecord) :
    get_vin_data vin data
      = (data.map stripRecord).filter
          (fun r => pyTake r.vin 8 == pyTake vin 8) := by
  simp only [get_vin_data]
  apply List.filter_congr
  intro x hx
  obtain ⟨r0, _, rfl⟩ := List.mem_map.1 hx
  rw [strip_stripRecord_vin]

/-! ### Deduction-rule store (claims C4 and C8) -/

theorem foldl_max_eq (a : ℕ) (as : List ℕ) :
    as.foldl max a = max a (as.foldr max 0) := by
  induction as generalizing a with
  | nil => simp
  | cons b bs ih =>
    simp [List.foldl_cons, List.foldr_cons, ih (max a b), max_assoc]

theorem newRuleId_eq_fold (rules : List Rule) :
    newRuleId rules = (ruleIds rules).foldr max 0 + 1 := by
  cases rules with
  | nil => rfl
  | cons r rs =>
    simp only [newRuleId, maxRuleId, ruleIds, List.map_cons, List.max?_cons',
      List.foldr_cons]
    rw [foldl_max_eq]

theorem le_foldr_max {l : List ℕ} {x : ℕ} (hx : x ∈ l) : x ≤ l.foldr max 0 := by
  induction l with
  | nil => cases hx
  | cons b bs ih =>
    rcases List.mem_cons.1 hx with rfl | h
    · exact le_max_left _ _
    · exact le_trans (ih h) (le_max_right _ _)

theorem newRuleId_not_mem (rules : List Rule) :
    newRuleId rules ∉ ruleIds rules := by
  intro hmem
  have h1 := le_foldr_max hmem
  rw [newRuleId_eq_fold] at h1
  omega

theorem ruleIds_add (rules : List Rule) (t : String) (rate : ℚ) (c : String) :
    ruleIds (add_rule rules t rate c) = ruleIds rules ++ [newRuleId rules] := by
  simp [ruleIds, add_rule]

theorem ruleIds_update (rules : List Rule) (i : Nat) (b : Bool) :
    ruleIds (update_rule_status rules i b) = ruleIds rules := by
  simp only [ruleIds, update_rule_status, List.map_map]
  apply List.map_congr_left
  intro r _
  simp only [Function.comp]
  split <;> rfl

theorem nodup_ruleIds_delete (rules : List Rule) (i : Nat)
    (h : (ruleIds rules).Nodup) : (ruleIds (delete_rule rules i)).Nodup := by
  have hsub : List.Sublist (ruleIds (delete_rule rules i)) (ruleIds rules) :=
    (List.filter_sublist rules).map _
  exact h.sublist hsub

theorem nodup_ruleIds_applyOp (rules : List Rule) (op : StoreOp)
    (h : (ruleIds rules).Nodup) : (ruleIds (applyOp rules op)).Nodup := by
  cases op with
  | addOp t rate c =>
    rw [applyOp, ruleIds_add]
    refine List.Nodup.append h (List.nodup_singleton _) ?_
    intro x hx hy
    rcases List.mem_singleton.1 hy with rfl
    exact newRuleId_not_mem rules hx
  | setActiveOp i b => rw [applyOp, ruleIds_update]; exact h
  | deleteOp i => exact nodup_ruleIds_delete rules i h

theorem nodup_ruleIds_runOps (rules : List Rule) (ops : List StoreOp)
    (h : (ruleIds rules).Nodup) : (ruleIds (runOps rules ops)).Nodup := by
  induction ops generalizing rules with
  | nil => exact h
  | cons op ops ih => exact ih _ (nodup_ruleIds_applyOp rules op h)

/-- C4: from any store with distinct ids, every sequence of add / set-active /
delete operations keeps the ids distinct; `add_rule` always assigns
`max(existing ids, default 0) + 1`; and deleting then re-adding only re-issues
the deleted id when that id happens to equal `max(remaining ids, default 0) + 1`. -/
theorem c4_store_id_invariants (rules : List Rule) (ops : List StoreOp)
    (hnodup : (ruleIds rules).Nodup) :
    (ruleIds (runOps rules ops)).Nodup ∧
    newRuleId rules = (ruleIds rules).foldr max 0 + 1 ∧
    (∀ i, newRuleId (delete_rule rules i) = i →
      i = (ruleIds (delete_rule rules i)).foldr max 0 + 1) :=
  ⟨nodup_ruleIds_runOps rules ops hnodup, newRuleId_eq_fold rules,
   fun i h => by rw [← newRuleId_eq_fold]; exact h.symm⟩

/-- Witness for C4: starting from the empty store, add two rules and delete
the first; the id invariants hold concretely. -/
theorem c4_store_id_invariants_witness :
    (ruleIds ([] : List Rule)).Nodup ∧
    ((ruleIds (runOps [] [StoreOp.addOp "General" 5 "General",
        StoreOp.addOp "Year" 10 "2020", StoreOp.deleteOp 1])).Nodup ∧
      newRuleId [] = (ruleIds ([] : List Rule)).foldr max 0 + 1 ∧
      (∀ i, newRuleId (delete_rule [] i) = i →
        i = (ruleIds (delete_rule ([] : List Rule) i)).foldr max 0 + 1)) :=
  ⟨by decide,
   c4_store_id_invariants [] [StoreOp.addOp "General" 5 "General",
     StoreOp.addOp "Year" 10 "2020", StoreOp.deleteOp 1] (by decide)⟩

/-- C8: if `v` is the stored activation value of every rule with id `i`, then
toggling to any `b` and back to `v` restores the store exactly, and the
id-ordered listing (`get_all_rules`) is unchanged. -/
theorem c8_toggle_twice_is_identity (rules : List Rule) (i : Nat) (b v : Bool)
    (horig : ∀ r ∈ rules, r.id = i → r.is_active = v) :
    update_rule_status (update_rule_status rules i b) i v = rules ∧
    get_all_rules (update_rule_status (update_rule_status rules i b) i v)
      = get_all_rules rules := by
  have hmain : update_rule_status (update_rule_status rules i b) i v = rules := by
    rw [update_rule_status, update_rule_status, List.map_map]
    have hpt : ∀ r ∈ rules,
        ((fun r : Rule => if r.id = i then { r with is_active := v } else r) ∘
         (fun r : Rule => if r.id = i then { r with is_active := b } else r)) r
        = r := by
      intro r hr
      by_cases hid : r.id = i
      · obtain ⟨rid, rt, rc, rr, ra⟩ := r
        have hv : ra = v := horig _ hr hid
        simp_all [Function.comp]
      · simp [Function.comp, hid]
    rw [List.map_congr_left hpt]
    simp
  exact ⟨hmain, by rw [hmain]⟩

/-- Witness for C8: a one-rule store toggled off and back on is unchanged. -/
theorem c8_toggle_twice_is_identity_witness :
    (∀ r ∈ [(⟨1, "General", "General", 5, true⟩ : Rule)],
      r.id = 1 → r.is_active = true) ∧
    (update_rule_status
        (update_rule_status [(⟨1, "General", "General", 5, true⟩ : Rule)] 1 false)
        1 true = [(⟨1, "General", "General", 5, true⟩ : Rule)] ∧
     get_all_rules (update_rule_status
        (update_rule_status [(⟨1, "General", "General", 5, true⟩ : Rule)] 1 false)
        1 true) = get_all_rules [(⟨1, "General", "General", 5, true⟩ : Rule)]) :=
  ⟨by decide, c8_toggle_twice_is_identity _ 1 false true (by decide)⟩

/-! ### Error handling of the prediction interaction (claim C7) -/

theorem quantile_single_10000 (q : ℚ) : quantile [10000] q = 10000 := by
  have hs : sortPrices [10000] = [10000] := rfl
  simp only [quantile, hs, List.length_singleton, Nat.cast_one]
  have h0 : q * ((1 : ℚ) - 1) = 0 := by ring
  rw [h0]
  have hfl : rfloorNat 0 = 0 := by simp [rfloorNat]
  rw [hfl]
  norm_num [List.getD]

theorem cleaned_single : cleanedPrices [10000] = [10000] := by
  simp only [cleanedPrices, quantile_single_10000]
  norm_num

theorem estimate_single_comparable :
    estimate_price_by_vin [10000] = some 10000 := by
  simp only [estimate_price_by_vin, cleaned_single]
  norm_num [median, quantile_single_10000]

/-- C7 (counterexample): with the dataset reachable (one comparable priced
10000) and the rule store unreachable, the interaction surfaces the connection
error but does *not* abort: it still shows the estimate and a final price. -/
theorem c7_counterexample :
    vin_based_prediction "1HGBH41JXMN109186" (.ok [cexRecord]) (.error "db down")
      = { error_messages := ["Databricks connection error: db down"]
          warning_messages := []
          estimated_price := some 10000
          final_price := some 10000 } := by
  have hlook : get_vin_data "1HGBH41JXMN109186" [cexRecord]
      = [stripRecord cexRecord] := rfl
  have hmap : [stripRecord cexRecord].map (fun v => v.sale_price) = [10000] := rfl
  simp only [vin_based_prediction, get_vin_data_load, hlook, hmap,
    estimate_single_comparable, get_all_rules_load]
  have hz : (10000 : ℚ) ≠ 0 := by norm_num
  rw [if_neg hz]
  have hfp : vinFinalPrice 10000 [] (stripRecord cexRecord).lot_year
      (stripRecord cexRecord).lot_make (stripRecord cexRecord).lot_model
      = 10000 := by
    simp [vinFinalPrice, vinTotalDeductionRate]
  simp [hfp]

/-- C7 (amended): when the dataset is unreachable the interaction surfaces the
load-error message, aborts, and produces neither an estimate nor a final
price; when instead the *rule store* is unreachable (dataset fine, matches
found, nonzero estimate) the interaction surfaces the connection-error message
but continues with an empty rule set: it shows the estimate and a final price
equal to the estimate (zero deduction). -/
theorem c7_missing_data_behaviour (vin e1 e2 : String)
    (ruleSrc : Except String (List Rule))
    (data : List VehicleRecord) (r : VehicleRecord) (rs : List VehicleRecord)
    (est : ℚ)
    (hlook : get_vin_data vin data = r :: rs)
    (hest : estimate_price_by_vin ((r :: rs).map (fun v => v.sale_price))
      = some est)
    (hz : est ≠ 0) :
    vin_based_prediction vin (.error e1) ruleSrc
      = { error_messages := ["Error loading VIN data: " ++ e1]
          warning_messages := ["No similar vehicles found for this VIN."]
          estimated_price := none
          final_price := none } ∧
    vin_based_prediction vin (.ok data) (.error e2)
      = { error_messages := ["Databricks connection error: " ++ e2]
          warning_messages := []
          estimated_price := some est
          final_price := some est } := by
  constructor
  · rfl
  · simp only [vin_based_prediction, get_vin_data_load, hlook, hest,
      get_all_rules_load]
    rw [if_neg hz]
    have hfp : vinFinalPrice est [] r.lot_year r.lot_make r.lot_model = est := by
      simp [vinFinalPrice, vinTotalDeductionRate]
    simp [hfp]

/-- Witness for C7 (amended): the concrete one-record dataset and a failing
rule store. -/
theorem c7_missing_data_behaviour_witness :
    get_vin_data "1HGBH41JXMN109186" [cexRecord] = [stripRecord cexRecord] ∧
    estimate_price_by_vin ([stripRecord cexRecord].map (fun v => v.sale_price))
      = some 10000 ∧
    (10000 : ℚ) ≠ 0 ∧
    (vin_based_prediction "1HGBH41JXMN109186"
        (.error "file not found") (.error "db down")
      = { error_messages := ["Error loading VIN data: " ++ "file not found"]
          warning_messages := ["No similar vehicles found for this VIN."]
          estimated_price := none
          final_price := none } ∧
     vin_based_prediction "1HGBH41JXMN109186" (.ok [cexRecord]) (.error "db down")
      = { error_messages := ["Databricks connection error: " ++ "db down"]
          warning_messages := []
          estimated_price := some 10000
          final_price := some 10000 }) :=
  ⟨rfl,
   by rw [show [stripRecord cexRecord].map (fun v => v.sale_price) = [10000]
        from rfl]; exact estimate_single_comparable,
   by norm_num,
   c7_missing_data_behaviour "1HGBH41JXMN109186" "file not found" "db down"
     (.error "db down") [cexRecord] (stripRecord cexRecord) [] 10000 rfl
     (by rw [show [stripRecord cexRecord].map (fun v => v.sale_price) = [10000]
        from rfl]; exact estimate_single_comparable)
     (by norm_num)⟩

/-- Witness for C6: on `[10000, 10500, 11000, 50000]`, with minimum 10000 and
maximum 50000, the returned estimate 10500 is inside `[10000, 50000]`. -/
theorem c6_estimate_within_min_max_witness :
    ([10000, 10500, 11000, 50000] : List ℚ) ≠ [] ∧
    ([10000, 10500, 11000, 50000] : List ℚ).min? = some 10000 ∧
    ([10000, 10500, 11000, 50000] : List ℚ).max? = some 50000 ∧
    estimate_price_by_vin [10000, 10500, 11000, 50000] = some 10500 ∧
    ((10000 : ℚ) ≤ 10500 ∧ (10500 : ℚ) ≤ 50000) :=
  ⟨by simp, by decide, by decide, estimate_example,
   c6_estimate_within_min_max [10000, 10500, 11000, 50000] (by simp)
     10000 50000 10500 (by decide) (by decide) estimate_example⟩

end SalesEstimation
